import Mathlib

/-!
Shallow embedding of the web-scrobbler background extension core
(`src/core/background/extension.js`) and the Google Play connector
(`src/connectors/google-play.js`).

External collaborators (`GA`, `Notifications`, `browser`) are modelled as an
effect list: each branch of the embedded code appends the calls it performs.
Storage reads/writes are modelled by explicit state passing.  Fallible code
(a property access on a possibly-null value) returns `Except`.
-/

/- ===================== Google Play connector ===================== -/

/-- A scraped playback sample of the Google Play page, as seen by the
connector accessors.  The base connector framework is outside the given
sources; `getArtist`/`getTrack` are modelled as returning the page's scraped
artist and track text (absent elements yield `none`, as the framework's
accessors yield a null-ish value there). -/
structure GPSample where
  artist : Option String
  track : Option String
deriving DecidableEq, Repr

/-- The ad placeholder string appearing in `google-play.js` line 30. -/
def adPlaceholder : String := "Subscribe to go ad-free"

def getArtist (s : GPSample) : Option String := s.artist

def getTrack (s : GPSample) : Option String := s.track

/-- `Connector.isScrobblingAllowed = () => Connector.getArtist() !== 'Subscribe to go ad-free'`
(`google-play.js` line 30).  A strict inequality test against the artist only. -/
def isScrobblingAllowed (s : GPSample) : Bool :=
  getArtist s != some adPlaceholder

/-- Boolean test: `pat` is a prefix of `s` (on character lists). -/
def startsWithList : List Char → List Char → Bool
  | [], _ => true
  | _ :: _, [] => false
  | p :: ps, c :: cs => p == c && startsWithList ps cs

/-- Boolean test: `pat` occurs as a contiguous sublist of `s`. -/
def hasSubList (pat : List Char) : List Char → Bool
  | [] => startsWithList pat []
  | c :: cs => startsWithList pat (c :: cs) || hasSubList pat cs

/-- Spec-side notion used by the eligibility claim: the string `s` contains
the substring `pat`. -/
def strHasSub (pat s : String) : Bool := hasSubList pat.data s.data

/- ===================== Controller events and effects ===================== -/

/-- Modelled from the spec: the module `object/controller-event` is not under
the given sources.  The spec lists four outbound lifecycle events per tab
(`Reset`, `NowPlaying`, `Unrecognized`, `Submitted`/scrobbled); the module
exports them as distinct numeric constants.  They are modelled as distinct
constructors, with `unknown code` standing for any other event value. -/
inductive ControllerEvent where
  | controllerReset
  | songNowPlaying
  | songScrobbled
  | songUnrecognized
  | unknown (code : Nat)
deriving DecidableEq, Repr

/-- `song.flags` of a controller song; only `isReplaying` is read by
`extension.js`. -/
structure SongFlags where
  isReplaying : Bool
deriving DecidableEq, Repr

/-- A controller song as read by `extension.js`. -/
structure Song where
  flags : SongFlags
deriving DecidableEq, Repr

/-- The connector info object returned by `ctrl.getConnector()`; only the
`label` field is read. -/
structure ConnectorInfo where
  label : String
deriving DecidableEq, Repr

/-- A controller instance, as read by `extension.js`: its tab id, its current
song (possibly null) and its connector.  The controller module is outside the
given sources; `getCurrentSong`/`getConnector` are modelled as field reads. -/
structure Controller where
  tabId : Nat
  currentSong : Option Song
  connector : ConnectorInfo
deriving DecidableEq, Repr

def Controller.getCurrentSong (c : Controller) : Option Song := c.currentSong

def Controller.getConnector (c : Controller) : ConnectorInfo := c.connector

/-- Calls performed on external collaborators (`Notifications`, `GA`,
`console`, tab opening), in program order. -/
inductive Effect where
  | clearNowPlaying (song : Song)
  | showNowPlaying (song : Song) (openTabId : Nat)
  | gaEvent (category action label : String)
  | showSongNotRecognized (song : Option Song) (openTabId : Nat)
  | consoleLog (n : Nat)
  | showAuthNotification
  | gaPageview (page : String)
deriving DecidableEq, Repr

/-- A thrown JavaScript error. -/
inductive JsError where
  | nullDereference
deriving DecidableEq, Repr

/-- The mutable fields of the `Extension` instance read or written by the
embedded methods. -/
structure ExtensionState where
  isSessionActive : Bool
  extVersion : String
deriving DecidableEq, Repr

/-- `Extension.processControllerEvent` (`extension.js` lines 238-275).
The switch dispatches on the event; no field of `this` is mutated, so the
state is returned unchanged.  In the `SongNowPlaying` branch the code reads
`song.flags` without a null check, so a null current song throws. -/
def processControllerEvent (st : ExtensionState) (ctrl : Controller)
    (event : ControllerEvent) : Except JsError (ExtensionState × List Effect) :=
  match event with
  | .controllerReset =>
    match ctrl.getCurrentSong with
    | some song => .ok (st, [.clearNowPlaying song])
    | none => .ok (st, [])
  | .songNowPlaying =>
    match ctrl.getCurrentSong with
    | none => .error .nullDereference
    | some song =>
      if song.flags.isReplaying then .ok (st, [])
      else .ok (st, [.showNowPlaying song ctrl.tabId])
  | .songScrobbled =>
    .ok (st, [.gaEvent "core" "scrobble" ctrl.getConnector.label])
  | .songUnrecognized =>
    .ok (st, [.consoleLog 2222, .showSongNotRecognized ctrl.getCurrentSong ctrl.tabId])
  | .unknown _ => .ok (st, [])

/-- `Extension.setSessionActive` (`extension.js` lines 223-230). -/
def setSessionActive (st : ExtensionState) : ExtensionState × List Effect :=
  if st.isSessionActive then (st, [])
  else ({ st with isSessionActive := true },
    [.gaPageview ("/background-injected?version=" ++ st.extVersion)])

/- ===================== Auth notification counter ===================== -/

/-- `authNotificationDisplayCount` (`extension.js` line 45). -/
def authNotificationDisplayCount : Nat := 3

/-- The notification storage record; `authDisplayCount` is `none` when the
key is missing. -/
structure NotificationStorage where
  authDisplayCount : Option Nat
deriving DecidableEq, Repr

/-- `data.authDisplayCount || 0`: the stored counter, treated as 0 when
missing (a stored 0 also yields 0, which coincides). -/
def storedAuthDisplayCount (d : NotificationStorage) : Nat :=
  d.authDisplayCount.getD 0

/-- `Extension.isAuthNotificationAllowed` (`extension.js` lines 201-206). -/
def isAuthNotificationAllowed (d : NotificationStorage) : Bool :=
  storedAuthDisplayCount d < authNotificationDisplayCount

/-- `Extension.updateAuthDisplayCount` (`extension.js` lines 211-217). -/
def updateAuthDisplayCount (d : NotificationStorage) : NotificationStorage :=
  { d with authDisplayCount := some (storedAuthDisplayCount d + 1) }

/-- `Extension.showAuthNotification` (`extension.js` lines 152-166): display
the auth notification (the no-notification-support fallback performs the same
user-visible action) and bump the counter, but only while allowed. -/
def showAuthNotification (d : NotificationStorage) :
    NotificationStorage × List Effect :=
  if isAuthNotificationAllowed d then
    (updateAuthDisplayCount d, [Effect.showAuthNotification])
  else (d, [])

/-- Iterate `showAuthNotification` `n` times from storage `d`, returning the
final storage and how many times the notification was displayed. -/
def runShowAuth : Nat → NotificationStorage → NotificationStorage × Nat
  | 0, d => (d, 0)
  | n + 1, d =>
    let r := showAuthNotification d
    let rest := runShowAuth n r.1
    (rest.1, r.2.length + rest.2)

/- ===================== Tab worker (registry) ===================== -/

/-- An Item tracked by a per-tab machine (identity fields only; that is all
the registry-level claims need). -/
structure Item where
  artist : String
  track : String
deriving DecidableEq, Repr

/-- Lifecycle states of a playback state machine, per spec section 4.2. -/
inductive MachineState where
  | idle
  | nowPlaying
  | submittable
  | submitted
  | unrecognized
deriving DecidableEq, Repr

/-- `Submitted` is the terminal reset-or-submitted endpoint of an Item's
lifecycle; all other states are non-terminal. -/
def MachineState.isTerminal : MachineState → Bool
  | .submitted => true
  | _ => false

/-- A per-tab playback state machine, as visible to the registry. -/
structure TabMachine where
  state : MachineState
  currentItem : Option Item
deriving DecidableEq, Repr

/-- Outbound lifecycle events emitted by a machine. -/
inductive OutEvent where
  | reset (item : Item)
  | nowPlayingEv (item : Item)
deriving DecidableEq, Repr

/-- Inbound samples and commands routed to a machine. -/
inductive TabMessage where
  | sample (artist track : String) (isPlaying : Bool)
  | command (name : String)
deriving DecidableEq, Repr

/-- The tab registry: machines keyed by tab id. -/
structure TabWorker where
  machines : List (Nat × TabMachine)
deriving DecidableEq, Repr

def lookupMachine (w : TabWorker) (tabId : Nat) : Option TabMachine :=
  (w.machines.find? (fun p => p.1 == tabId)).map Prod.snd

def removeMachine (w : TabWorker) (tabId : Nat) : TabWorker :=
  ⟨w.machines.filter (fun p => p.1 != tabId)⟩

/-- Modelled from the spec: the `object/tab-worker` module is not under the
given sources.  Per spec section 4.1, `detach` "forces the owned machine to
emit a reset event (if it had a current Item) before destruction"; per spec
section 8, detaching with a current non-terminal Item emits exactly one
`Reset`.  A machine whose Item already reached its terminal submitted state
emits nothing further. -/
def detachEvents (m : TabMachine) : List OutEvent :=
  match m.currentItem with
  | some it => if m.state.isTerminal then [] else [.reset it]
  | none => []

/-- Modelled from the spec: `tabWorker.processTabRemove(tabId)` (wired to
`browser.tabs.onRemoved` in `extension.js` lines 110-112) detaches the tab:
the owned machine emits its detach events and is destroyed; removing a tab
with no registered machine does nothing. -/
def processTabRemove (w : TabWorker) (tabId : Nat) : TabWorker × List OutEvent :=
  match lookupMachine w tabId with
  | some m => (removeMachine w tabId, detachEvents m)
  | none => (w, [])

/-- Modelled from the spec: `route` of the tab registry (spec section 4.1)
"forwards to the addressed machine; routing to an unknown tab id is a no-op
(tab may have just closed) - must not raise".  The per-machine step is an
explicit parameter, since the machine's own transition logic is irrelevant to
the routing claims. -/
def route (step : TabMachine → TabMessage → TabMachine × List OutEvent)
    (w : TabWorker) (tabId : Nat) (msg : TabMessage) :
    TabWorker × List OutEvent :=
  match lookupMachine w tabId with
  | none => (w, [])
  | some m =>
    let r := step m msg
    (⟨w.machines.map (fun p => if p.1 == tabId then (p.1, r.1) else p)⟩, r.2)

/- ===================== Helper lemmas ===================== -/

theorem lookupMachine_removeMachine (w : TabWorker) (tabId : Nat) :
    lookupMachine (removeMachine w tabId) tabId = none := by
  have h : (w.machines.filter (fun p => p.1 != tabId)).find?
      (fun p => p.1 == tabId) = none := by
    rw [List.find?_eq_none]
    intro x hx
    rcases List.mem_filter.mp hx with ⟨-, hq⟩
    simp at hq ⊢
    exact hq
  simp [lookupMachine, removeMachine, h]

theorem runShowAuth_bound (n : Nat) (d : NotificationStorage) :
    (runShowAuth n d).2 + min (storedAuthDisplayCount d) authNotificationDisplayCount ≤
      authNotificationDisplayCount := by
  induction n generalizing d with
  | zero => simp [runShowAuth]
  | succ n ih =>
    by_cases h : storedAuthDisplayCount d < authNotificationDisplayCount
    · have hstep : showAuthNotification d =
          (updateAuthDisplayCount d, [Effect.showAuthNotification]) := by
        simp [showAuthNotification, isAuthNotificationAllowed, h]
      have hcount : storedAuthDisplayCount (updateAuthDisplayCount d) =
          storedAuthDisplayCount d + 1 := by
        simp [updateAuthDisplayCount, storedAuthDisplayCount]
      have := ih (updateAuthDisplayCount d)
      rw [hcount] at this
      simp only [runShowAuth, hstep, List.length]
      unfold authNotificationDisplayCount at h this ⊢
      omega
    · have hstep : showAuthNotification d = (d, []) := by
        simp [showAuthNotification, isAuthNotificationAllowed, h]
      have := ih d
      simp only [runShowAuth, hstep, List.length]
      unfold authNotificationDisplayCount at h this ⊢
      omega

/- ===================== Claim theorems ===================== -/

/-- C1 (counterexample): the claim says any sample whose artist or track
title contains the denylisted substring is denied scrobbling.  On the code,
a sample whose track title is exactly the ad placeholder (hence contains it)
but whose artist differs is still allowed: `isScrobblingAllowed` inspects
only the artist, by whole-string equality. -/
theorem c1_counterexample :
    strHasSub adPlaceholder ((getTrack ⟨some "Foo Fighters", some "Subscribe to go ad-free"⟩).getD "") = true ∧
    isScrobblingAllowed ⟨some "Foo Fighters", some "Subscribe to go ad-free"⟩ = true := by
  constructor
  · decide
  · decide

/-- C1 (amended): in the Google Play connector, `isScrobblingAllowed`
returns false exactly when the artist equals the ad placeholder string
`Subscribe to go ad-free`; the track title is never inspected and substring
containment short of whole-string equality does not deny scrobbling. -/
theorem c1_scrobbling_denied_iff_artist_is_placeholder (s : GPSample) :
    isScrobblingAllowed s = false ↔ getArtist s = some adPlaceholder := by
  unfold isScrobblingAllowed
  rcases s with ⟨a, t⟩
  simp [getArtist, bne]

/-- C2: on a `SongNowPlaying` event with a current song, the now-playing
notification (with a click handler opening the controller's tab) is shown
exactly when the song's `flags.isReplaying` is false; a replaying song
suppresses the duplicate notification. -/
theorem c2_now_playing_shown_iff_not_replaying (st : ExtensionState)
    (ctrl : Controller) (song : Song) (h : ctrl.getCurrentSong = some song) :
    processControllerEvent st ctrl .songNowPlaying =
      .ok (st, if song.flags.isReplaying then []
        else [.showNowPlaying song ctrl.tabId]) := by
  unfold processControllerEvent
  rw [h]
  by_cases hr : song.flags.isReplaying <;> simp [hr]

/-- C2 witness: at a concrete non-replaying song the notification is shown. -/
theorem c2_witness :
    processControllerEvent ⟨false, "2.0.0"⟩ ⟨7, some ⟨⟨false⟩⟩, ⟨"Google Play Music"⟩⟩ .songNowPlaying =
      .ok (⟨false, "2.0.0"⟩, if (⟨⟨false⟩⟩ : Song).flags.isReplaying then []
        else [.showNowPlaying ⟨⟨false⟩⟩ (⟨7, some ⟨⟨false⟩⟩, ⟨"Google Play Music"⟩⟩ : Controller).tabId]) :=
  c2_now_playing_shown_iff_not_replaying ⟨false, "2.0.0"⟩ _ ⟨⟨false⟩⟩ rfl

/-- C3: removing a tab whose machine holds a current non-terminal Item emits
exactly one `Reset` event for that Item, and the machine is destroyed (no
machine remains registered for that tab id). -/
theorem c3_tab_remove_emits_one_reset (w : TabWorker) (tabId : Nat)
    (m : TabMachine) (it : Item) (hm : lookupMachine w tabId = some m)
    (hit : m.currentItem = some it) (hterm : m.state.isTerminal = false) :
    (processTabRemove w tabId).2 = [OutEvent.reset it] ∧
    lookupMachine (processTabRemove w tabId).1 tabId = none := by
  unfold processTabRemove
  rw [hm]
  constructor
  · simp [detachEvents, hit, hterm]
  · exact lookupMachine_removeMachine w tabId

/-- C3 witness: a concrete registry with one now-playing machine. -/
theorem c3_witness :
    (processTabRemove ⟨[(4, ⟨.nowPlaying, some ⟨"Artist", "Track"⟩⟩)]⟩ 4).2 =
      [OutEvent.reset ⟨"Artist", "Track"⟩] ∧
    lookupMachine (processTabRemove ⟨[(4, ⟨.nowPlaying, some ⟨"Artist", "Track"⟩⟩)]⟩ 4).1 4 = none :=
  c3_tab_remove_emits_one_reset _ 4 ⟨.nowPlaying, some ⟨"Artist", "Track"⟩⟩
    ⟨"Artist", "Track"⟩ rfl rfl rfl

/-- C4: routing a sample or command to a tab id with no registered machine
is a total no-op: the registry is returned unchanged, no events are emitted
and no error can be raised (the routing function is total), for any machine
step function. -/
theorem c4_route_unknown_tab_noop
    (step : TabMachine → TabMessage → TabMachine × List OutEvent)
    (w : TabWorker) (tabId : Nat) (msg : TabMessage)
    (h : lookupMachine w tabId = none) :
    route step w tabId msg = (w, []) := by
  unfold route
  rw [h]

/-- C4 witness: routing a command to an empty registry. -/
theorem c4_witness :
    route (fun m _ => (m, [])) ⟨[]⟩ 5 (.command "skip") = (⟨[]⟩, []) :=
  c4_route_unknown_tab_noop (fun m _ => (m, [])) ⟨[]⟩ 5 (.command "skip") rfl

/-- C5: on a `SongUnrecognized` event, the song-not-recognized notification
is shown for the controller's current song, with a click handler opening the
originating tab (preceded only by a stray debug log), and state is
unchanged. -/
theorem c5_unrecognized_shows_notification (st : ExtensionState)
    (ctrl : Controller) :
    processControllerEvent st ctrl .songUnrecognized =
      .ok (st, [.consoleLog 2222,
        .showSongNotRecognized ctrl.getCurrentSong ctrl.tabId]) := rfl

/-- C6: on a `SongScrobbled` event, exactly one analytics event
`('core', 'scrobble', label)` is emitted, carrying the label of the
originating controller's connector, and state is unchanged. -/
theorem c6_scrobbled_emits_one_analytics_event (st : ExtensionState)
    (ctrl : Controller) :
    processControllerEvent st ctrl .songScrobbled =
      .ok (st, [.gaEvent "core" "scrobble" ctrl.getConnector.label]) := rfl

/-- C7: any controller event other than the four lifecycle events falls
through the switch: the extension state is returned unchanged and no
notification or analytics call is performed. -/
theorem c7_other_events_are_noops (st : ExtensionState) (ctrl : Controller)
    (code : Nat) :
    processControllerEvent st ctrl (.unknown code) = .ok (st, []) := rfl

/-- C8: the auth notification is rate-limited by the stored counter: a call
displays the notification and increments the counter (missing treated as 0)
exactly when the counter is below `authNotificationDisplayCount` (3), is a
no-op once the counter reached 3, and hence across any number of calls the
notification is displayed at most `3 - min(counter, 3)` further times (at
most 3 from a fresh store). -/
theorem c8_auth_notification_bounded (d : NotificationStorage) (n : Nat) :
    showAuthNotification d =
      (if storedAuthDisplayCount d < authNotificationDisplayCount
        then (updateAuthDisplayCount d, [Effect.showAuthNotification])
        else (d, [])) ∧
    (runShowAuth n d).2 + min (storedAuthDisplayCount d) authNotificationDisplayCount ≤
      authNotificationDisplayCount := by
  constructor
  · by_cases h : storedAuthDisplayCount d < authNotificationDisplayCount <;>
      simp [showAuthNotification, isAuthNotificationAllowed, h]
  · exact runShowAuth_bound n d

/-- C9: on a `ControllerReset` event, the now-playing notification is
cleared exactly when the controller has a current song; a null current song
raises nothing (the branch checks the song before use). -/
theorem c9_reset_clears_iff_current_song (st : ExtensionState)
    (ctrl : Controller) :
    processControllerEvent st ctrl .controllerReset =
      .ok (st, match ctrl.getCurrentSong with
        | some song => [.clearNowPlaying song]
        | none => []) := by
  unfold processControllerEvent
  rcases h : ctrl.getCurrentSong with _ | song <;> rfl

/-- C10: `setSessionActive` is idempotent: after one call the session is
active; applying it to its own result changes nothing and emits nothing; the
first call from an inactive session emits exactly one `background-injected`
pageview; a call on an active session is a no-op. -/
theorem c10_setSessionActive_idempotent (st : ExtensionState) :
    (setSessionActive st).1.isSessionActive = true ∧
    setSessionActive (setSessionActive st).1 = ((setSessionActive st).1, []) ∧
    (st.isSessionActive = false →
      (setSessionActive st).2 =
        [.gaPageview ("/background-injected?version=" ++ st.extVersion)]) ∧
    (st.isSessionActive = true → setSessionActive st = (st, [])) := by
  by_cases h : st.isSessionActive <;>
    simp [setSessionActive, h]

/-- C10 witness: a concrete inactive-then-repeated session activation. -/
theorem c10_witness :
    (setSessionActive ⟨false, "2.0.0"⟩).1.isSessionActive = true ∧
    setSessionActive (setSessionActive ⟨false, "2.0.0"⟩).1 =
      ((setSessionActive ⟨false, "2.0.0"⟩).1, []) ∧
    ((⟨false, "2.0.0"⟩ : ExtensionState).isSessionActive = false →
      (setSessionActive ⟨false, "2.0.0"⟩).2 =
        [.gaPageview ("/background-injected?version=" ++ (⟨false, "2.0.0"⟩ : ExtensionState).extVersion)]) ∧
    ((⟨false, "2.0.0"⟩ : ExtensionState).isSessionActive = true →
      setSessionActive ⟨false, "2.0.0"⟩ = (⟨false, "2.0.0"⟩, [])) :=
  c10_setSessionActive_idempotent ⟨false, "2.0.0"⟩
